import Mathlib

set_option maxHeartbeats 1000000

/-!
Shallow embedding of the mercado-livre-api repository (src/ml_client.py and
src/app.py). Python dict/JSON values are modelled by the inductive `Json`;
Python exceptions by `PyExc` with `Except`; the network (httpx) by an
attempt-indexed oracle `Nat → TransportOutcome`. HTTP headers, URLs, the
asyncio semaphore and the backoff sleeps have no observable effect on the
values the claims talk about and are absorbed into that oracle.
-/

/-- JSON-like values as decoded by a response body in the Python client. -/
inductive Json where
  | null
  | bool (b : Bool)
  | num (n : Int)
  | str (s : String)
  | arr (elems : List Json)
  | obj (entries : List (String × Json))

/-- Python truthiness of a JSON value (`if x:`). -/
def Json.truthy : Json → Bool
  | .null => false
  | .bool b => b
  | .num n => n != 0
  | .str s => s != ""
  | .arr elems => !elems.isEmpty
  | .obj entries => !entries.isEmpty

/-- Python `isinstance(x, list)`. -/
def Json.isArr : Json → Bool
  | .arr _ => true
  | _ => false

/-- Python `a or b` applied to JSON values. -/
def orElseJ (a b : Json) : Json :=
  if a.truthy then a else b

/-- First value bound to `key` in a dict (Python dicts have unique keys). -/
def lookupKey (entries : List (String × Json)) (key : String) : Option Json :=
  (entries.find? (fun p => p.1 == key)).map (fun p => p.2)

/-- Dict lookup totalised with Python `.get` default `None`. -/
def jGet (entries : List (String × Json)) (key : String) : Json :=
  (lookupKey entries key).getD .null

/-- Python `str(x)`; container cases are an approximation of `repr`,
no claim inspects them. -/
def pyStr : Json → String
  | .null => "None"
  | .bool true => "True"
  | .bool false => "False"
  | .num n => toString n
  | .str s => s
  | .arr _ => "<list>"
  | .obj _ => "<dict>"

/-- Python dict update preserving insertion order, for the
`\x7b**item, "reviews": r\x7d` merge. -/
def upsertKey : List (String × Json) → String → Json → List (String × Json)
  | [], key, v => [(key, v)]
  | (k, w) :: rest, key, v =>
      if k == key then (k, v) :: rest else (k, w) :: upsertKey rest key v

/-- Dict merge `\x7b**item, key: v\x7d`; the receiver is an object at every
call site (a non-dict receiver would already have raised earlier). -/
def Json.setKey : Json → String → Json → Json
  | .obj entries, key, v => .obj (upsertKey entries key v)
  | j, _, _ => j

/-- Exceptions that can flow through the code under consideration. -/
inductive PyExc where
  | mlError (status : Nat) (message : String)
  | httpTimeout (detail : String)
  | httpNetwork (detail : String)
  | attributeError
  | typeError
  | jsonDecodeError

/-- Python computations that may raise. -/
abbrev PyM (α : Type) := Except PyExc α

/-- An httpx response: status code, body as parsed JSON (`none` when the
body is not valid JSON, so `.json()` raises), and raw text. -/
structure Response where
  status : Nat
  jsonBody : Option Json
  text : String

/-- Model of `resp.json()`. -/
def Response.json (r : Response) : PyM Json :=
  match r.jsonBody with
  | some j => .ok j
  | none => .error .jsonDecodeError

/-- Model of Python `x.get(key, dflt)`: raises AttributeError unless the
receiver is a dict. -/
def dictGetD (j : Json) (key : String) (dflt : Json) : PyM Json :=
  match j with
  | .obj entries => .ok ((lookupKey entries key).getD dflt)
  | _ => .error .attributeError

/-- Model of Python `x.get(key)` (default `None`). -/
def dictGet (j : Json) (key : String) : PyM Json :=
  dictGetD j key .null

/-- Python `results[:limit]` followed by iteration: lists slice to lists,
strings slice to their characters, anything else raises TypeError. -/
def pySlice (j : Json) (limit : Nat) : PyM (List Json) :=
  match j with
  | .arr elems => .ok (elems.take limit)
  | .str s => .ok ((s.toList.take limit).map (fun c => .str (String.mk [c])))
  | _ => .error .typeError

/-- Outcome of one raw `client.request(...)` call. -/
inductive TransportOutcome where
  | ok (r : Response)
  | timeout (detail : String)
  | networkError (detail : String)

/-- MAX_RETRIES from ml_client.py line 10. -/
def MAX_RETRIES : Nat := 3

/-- RETRY_STATUS_CODES from ml_client.py line 11. -/
def RETRY_STATUS_CODES : List Nat := [429, 500, 502, 503, 504]

/-- Whether one transport outcome is retried by the loop in `_request`. -/
def TransportOutcome.retryable : TransportOutcome → Bool
  | .ok r => RETRY_STATUS_CODES.contains r.status
  | .timeout _ => true
  | .networkError _ => true

/-- A terminal transport outcome as the value of `_request`. -/
def settleOutcome : TransportOutcome → PyM Response
  | .ok r => .ok r
  | .timeout d => .error (.httpTimeout d)
  | .networkError d => .error (.httpNetwork d)

/-- The `for attempt in range(MAX_RETRIES + 1)` loop of `_request`
(ml_client.py lines 84-111), over the list of remaining attempt indices,
together with the number of transport calls performed. The backoff sleep
has no observable effect and is dropped. The `[]` case is the fallback
request after the loop (lines 109-111), unreachable from `mlRequest`. -/
def requestAttempts (upstream : Nat → TransportOutcome) :
    List Nat → PyM Response × Nat
  | [] => (settleOutcome (upstream (MAX_RETRIES + 1)), 1)
  | attempt :: rest =>
      match upstream attempt with
      | .ok resp =>
          if RETRY_STATUS_CODES.contains resp.status then
            if attempt = MAX_RETRIES then (.ok resp, 1)
            else
              let p := requestAttempts upstream rest
              (p.1, p.2 + 1)
          else (.ok resp, 1)
      | .timeout d =>
          if attempt = MAX_RETRIES then (.error (.httpTimeout d), 1)
          else
            let p := requestAttempts upstream rest
            (p.1, p.2 + 1)
      | .networkError d =>
          if attempt = MAX_RETRIES then (.error (.httpNetwork d), 1)
          else
            let p := requestAttempts upstream rest
            (p.1, p.2 + 1)

/-- `MercadoLivreClient._request`: the retried transport call, returning
the response or re-raising the last transport error, paired with the
number of raw transport calls performed. -/
def mlRequest (upstream : Nat → TransportOutcome) : PyM Response × Nat :=
  requestAttempts upstream (List.range (MAX_RETRIES + 1))

/-- Body of `get_item_reviews` after `_request` has settled
(ml_client.py lines 170-189), as a function of the `_request` result. -/
def reviewsOutcome (res : PyM Response) (item_id : String) :
    PyM (List Json × Option String) :=
  match res with
  | .error (.httpTimeout d) =>
      .ok ([], some ("network_error ao buscar reviews (" ++ item_id ++ "): " ++ d))
  | .error (.httpNetwork d) =>
      .ok ([], some ("network_error ao buscar reviews (" ++ item_id ++ "): " ++ d))
  | .error e => .error e
  | .ok resp =>
      if resp.status = 401 ∨ resp.status = 403 then
        .ok ([], some ("forbidden_or_unauthorized (" ++ toString resp.status ++
          ") ao buscar reviews (" ++ item_id ++ ")"))
      else if resp.status = 404 then
        .ok ([], none)
      else if resp.status = 429 then
        .ok ([], some ("rate_limited (429) ao buscar reviews (" ++ item_id ++ ")"))
      else if resp.status ≠ 200 then
        .ok ([], some ("erro (" ++ toString resp.status ++ ") ao buscar reviews ("
          ++ item_id ++ ")"))
      else do
        let j ← resp.json
        let data := orElseJ j (.obj [])
        let rv ← dictGetD data "reviews" (.arr [])
        let reviews := orElseJ rv (.arr [])
        match reviews with
        | .arr elems => pure (elems, none)
        | _ => pure ([], none)

/-- `MercadoLivreClient.get_item_reviews` (ml_client.py lines 163-189). -/
def get_item_reviews (upstream : Nat → TransportOutcome) (item_id : String) :
    PyM (List Json × Option String) :=
  reviewsOutcome (mlRequest upstream).1 item_id

/-- Client configuration relevant to the claims: `PROXY_URL`
(ml_client.py line 39). Site id and token only shape URLs and headers,
which are absorbed into the transport oracle. -/
structure ClientConfig where
  proxy_url : Option String

/-- Python truthiness of `self.proxy_url` (`not self.proxy_url` is true
for both an unset and an empty proxy address). -/
def ClientConfig.proxyTruthy (cfg : ClientConfig) : Bool :=
  match cfg.proxy_url with
  | some s => s != ""
  | none => false

/-- The distinguished 403 message of ml_client.py lines 130-133. -/
def hint403 : String :=
  "403 forbidden do Mercado Livre. Isso costuma ser bloqueio de IP/datacenter " ++
  "(ex.: Render). Solução: configurar PROXY_URL no Render (proxy HTTP/HTTPS) " ++
  "ou rodar em outro host/IP."

/-- One iteration of the item loop of `search_items`
(ml_client.py lines 145-159): build the normalized item dict. -/
def parseCatalogEntry (entry : Json) : PyM Json := do
  let idv ← dictGet entry "id"
  let ttl ← dictGet entry "title"
  let pr ← dictGet entry "price"
  let th ← dictGet entry "thumbnail"
  let sth ← dictGet entry "secure_thumbnail"
  let tid ← dictGet entry "thumbnail_id"
  pure (.obj [("id", idv), ("title", ttl), ("price", pr),
              ("image", orElseJ th (orElseJ sth tid))])

/-- Sequential mapping that propagates the first raised exception; models
both the append loops and `asyncio.gather(..., return_exceptions=False)`. -/
def mapE (f : α → PyM β) : List α → PyM (List β)
  | [] => .ok []
  | x :: xs =>
      match f x with
      | .error e => .error e
      | .ok y =>
          match mapE f xs with
          | .error e => .error e
          | .ok ys => .ok (y :: ys)

/-- Body of `search_items` on the 200 path (ml_client.py lines 141-161). -/
def parseSearchBody (j : Json) (limit : Nat) : PyM (List Json) := do
  let data := orElseJ j (.obj [])
  let results0 ← dictGetD data "results" (.arr [])
  let results := orElseJ results0 (.arr [])
  let sliced ← pySlice results limit
  mapE parseCatalogEntry sliced

/-- Body of `search_items` after `_request` has settled
(ml_client.py lines 124-161), as a function of the `_request` result. -/
def searchOutcome (cfg : ClientConfig) (res : PyM Response) (limit : Nat) :
    PyM (List Json) := do
  let resp ← res
  if resp.status ≠ 200 then
    if resp.status = 403 ∧ cfg.proxyTruthy = false then
      Except.error (.mlError 403 hint403)
    else
      Except.error (.mlError resp.status ("Erro ao buscar itens: " ++ resp.text))
  else
    parseSearchBody (← resp.json) limit

/-- `MercadoLivreClient.search_items` (ml_client.py lines 113-161); the
query only shapes the request parameters, absorbed into the oracle. -/
def search_items (cfg : ClientConfig) (upstream : Nat → TransportOutcome)
    (query : String) (limit : Nat) : PyM (List Json) :=
  searchOutcome cfg (mlRequest upstream).1 limit

/-- Upstream behaviour seen by one `/search` request: the catalog call and
the per-item-id reviews calls, each attempt-indexed. -/
structure UpstreamEnv where
  catalog : Nat → TransportOutcome
  reviews : String → Nat → TransportOutcome

/-- `MercadoLivreClient._fetch_reviews_with_semaphore`
(ml_client.py lines 191-200); the semaphore only schedules and is dropped.
`reviews or []` is the identity on a Python list and is kept as is. -/
def fetch_reviews_with_semaphore (env : UpstreamEnv) (item : Json) :
    PyM (Json × Option String) := do
  let item_id ← dictGet item "id"
  if item_id.truthy = false then
    pure (Json.setKey item "reviews" (.arr []), none)
  else do
    let pr ← get_item_reviews (env.reviews (pyStr item_id)) (pyStr item_id)
    pure (Json.setKey item "reviews" (.arr pr.1), pr.2)

/-- The gather loop of `attach_reviews` (ml_client.py lines 208-216):
collect items in order and append truthy warnings in the same order. -/
def collectResults : List (Json × Option String) → List Json × List String
  | [] => ([], [])
  | (item, warning) :: rest =>
      let p := collectResults rest
      (item :: p.1,
        match warning with
        | some w => if w = "" then p.2 else w :: p.2
        | none => p.2)

/-- `MercadoLivreClient.attach_reviews` (ml_client.py lines 202-216). -/
def attach_reviews (env : UpstreamEnv) (items : List Json) :
    PyM (List Json × List String) :=
  match mapE (fetch_reviews_with_semaphore env) items with
  | .error e => .error e
  | .ok results => .ok (collectResults results)

/-- One normalized item as produced by `_normalize_items` in app.py. -/
structure NormItem where
  id : Json
  title : Json
  price : Json
  image : Option String
  permalink : Json
  reviews : List Json

/-- Python `s.startswith(pre)`, via character lists so that it computes
by structural recursion. -/
def strStartsWith (s pre : String) : Bool :=
  pre.toList.isPrefixOf s.toList

/-- One iteration of the loop of `_normalize_items` (app.py lines 38-63). -/
def normalizeOne (it : Json) : PyM NormItem := do
  let ttl0 ← dictGet it "title"
  let nm ← dictGet it "name"
  let title := orElseJ ttl0 (orElseJ nm (.str ""))
  let price ← dictGet it "price"
  let pl0 ← dictGet it "permalink"
  let url0 ← dictGet it "url"
  let permalink := orElseJ pl0 (orElseJ url0 .null)
  let st ← dictGet it "secure_thumbnail"
  let th ← dictGet it "thumbnail"
  let im0 ← dictGet it "image"
  let image := orElseJ st (orElseJ th im0)
  let image_url : Option String :=
    match image with
    | .str s =>
        if s ≠ "" ∧ (strStartsWith s "http://" ∨ strStartsWith s "https://")
        then some s else none
    | _ => none
  let rv ← dictGet it "reviews"
  let reviews := match rv with | .arr elems => elems | _ => ([] : List Json)
  let idv ← dictGet it "id"
  pure { id := idv, title := title, price := price, image := image_url,
         permalink := permalink, reviews := reviews }

/-- `_normalize_items` (app.py lines 27-65); `items or []` is the
identity on a list argument. -/
def normalize_items (items : List Json) : PyM (List NormItem) :=
  mapE normalizeOne items

/-- The JSON payload of the `/search` handler. -/
structure SearchPayload where
  query : String
  limit : Nat
  count : Nat
  items : List NormItem
  warnings : List String

/-- Approximation of Python `str(exc)` for the exceptions the handler can
see; no claim inspects the text of the non-MercadoLivreError cases. -/
def excStr : PyExc → String
  | .mlError st m => "(" ++ toString st ++ ") " ++ m
  | .httpTimeout d => d
  | .httpNetwork d => d
  | .attributeError => "AttributeError"
  | .typeError => "TypeError"
  | .jsonDecodeError => "JSONDecodeError"

/-- The warning appended by the except clauses of the handler
(app.py lines 101-109), in their order: MercadoLivreError, then
httpx.HTTPError (timeouts and network errors), then Exception. -/
def handlerWarning : PyExc → String
  | .mlError st m =>
      "Erro ao buscar itens no Mercado Livre (" ++ toString st ++ "): " ++ m
  | .httpTimeout d => "Erro de rede ao chamar Mercado Livre: " ++ d
  | .httpNetwork d => "Erro de rede ao chamar Mercado Livre: " ++ d
  | e => "Erro inesperado no servidor: " ++ excStr e

/-- The try block of the `/search` handler (app.py lines 85-99):
search, enrich, normalize. -/
def searchPipeline (cfg : ClientConfig) (env : UpstreamEnv)
    (query : String) (limit : Nat) : PyM (List NormItem × List String) := do
  let items ← search_items cfg env.catalog query limit
  let pr ← attach_reviews env items
  let normalized ← normalize_items pr.1
  pure (normalized, pr.2)

/-- The `/search` handler (app.py lines 68-114): the base payload is
returned with items/count filled on success, or with the single warning
of the matching except clause on failure; `payload["warnings"]` is set
only when warnings is non-empty, which coincides with the collected list. -/
def searchHandler (cfg : ClientConfig) (env : UpstreamEnv)
    (query : String) (limit : Nat) : SearchPayload :=
  match searchPipeline cfg env query limit with
  | .ok pr =>
      { query := query, limit := limit, count := pr.1.length,
        items := pr.1, warnings := pr.2 }
  | .error e =>
      { query := query, limit := limit, count := 0, items := [],
        warnings := [handlerWarning e] }

/-- Substring test used to state facts about warning texts. -/
def charsHave (pat : List Char) : List Char → Bool
  | [] => pat.isEmpty
  | c :: rest => pat.isPrefixOf (c :: rest) || charsHave pat rest

/-- Whether `pat` occurs contiguously inside `s`. -/
def strContains (s pat : String) : Bool :=
  charsHave pat.toList s.toList

/-- A 404 reviews response. -/
def respW404 : Response := ⟨404, none, ""⟩

/-- A reviews endpoint answering 404 on every attempt. -/
def u404 : Nat → TransportOutcome := fun _ => .ok respW404

/-- A 201 response whose object body has a non-list reviews field. -/
def resp201 : Response := ⟨201, some (.obj [("reviews", .str "oops")]), ""⟩

/-- A reviews endpoint answering 201 on every attempt. -/
def u201 : Nat → TransportOutcome := fun _ => .ok resp201

/-- A 200 response whose body is a JSON array, not an object. -/
def respArr200 : Response := ⟨200, some (.arr [.num 1, .num 2]), ""⟩

/-- A reviews endpoint answering 200 with an array body on every attempt. -/
def uArr200 : Nat → TransportOutcome := fun _ => .ok respArr200

/-- A 503 response. -/
def resp503 : Response := ⟨503, none, "unavailable"⟩

/-- An endpoint answering 503 on every attempt. -/
def u503 : Nat → TransportOutcome := fun _ => .ok resp503

/-- A 403 response. -/
def resp403 : Response := ⟨403, none, "blocked"⟩

/-- An endpoint answering 403 on every attempt. -/
def u403 : Nat → TransportOutcome := fun _ => .ok resp403

/-- A 500 response. -/
def resp500 : Response := ⟨500, none, "boom"⟩

/-- Configuration without a proxy address. -/
def cfgNoProxy : ClientConfig := ⟨none⟩

/-- Configuration with a truthy proxy address. -/
def cfgWithProxy : ClientConfig := ⟨some "http://proxy.example:8080"⟩

/-- Environment whose catalog call keeps failing with 500. -/
def env500 : UpstreamEnv := ⟨fun _ => .ok resp500, fun _ _ => .ok respW404⟩

/-- Items used by the fan-out order fixture. -/
def itemA : Json := .obj [("id", .str "MLBA")]

/-- Second item of the fan-out order fixture. -/
def itemB : Json := .obj [("id", .str "MLBB")]

/-- Environment whose reviews calls all answer 404. -/
def envReviews404 : UpstreamEnv := ⟨fun _ => .ok respW404, fun _ _ => .ok respW404⟩

/-- A catalog entry with id, title, price and a plain thumbnail URL. -/
def entryW : Json :=
  .obj [("id", .str "MLB1"), ("title", .str "Notebook"), ("price", .num 3500),
        ("thumbnail", .str "http://img.example/x.jpg")]

/-- A 200 catalog response with one result. -/
def respSearchOk : Response := ⟨200, some (.obj [("results", .arr [entryW])]), ""⟩

/-- Environment for a fully successful search plus enrichment. -/
def envSearchOk : UpstreamEnv := ⟨fun _ => .ok respSearchOk, fun _ _ => .ok respW404⟩

/-- The item `search_items` builds from `entryW`. -/
def itemW : Json :=
  .obj [("id", .str "MLB1"), ("title", .str "Notebook"), ("price", .num 3500),
        ("image", .str "http://img.example/x.jpg")]

/-- Entries of a catalog result carrying both thumbnail fields. -/
def kvsBoth : List (String × Json) :=
  [("id", .str "MLB2"), ("secure_thumbnail", .str "https://img.example/x.jpg"),
   ("thumbnail", .str "http://img.example/x.jpg")]

/-- A 200 catalog response whose single result has both thumbnail fields. -/
def respSearchBoth : Response :=
  ⟨200, some (.obj [("results", .arr [.obj kvsBoth])]), ""⟩

/-- Environment for the both-thumbnails search. -/
def envSearchBoth : UpstreamEnv :=
  ⟨fun _ => .ok respSearchBoth, fun _ _ => .ok respW404⟩

/-- An item whose id field is null. -/
def itemNullId : Json := .obj [("id", .null), ("title", .str "T")]

/-- An alternative environment where every call keeps failing with 500. -/
def envAlt : UpstreamEnv := ⟨fun _ => .ok resp500, fun _ _ => .ok resp500⟩

/-- A 200 catalog response whose body is a JSON string, not an object. -/
def respStrBody : Response := ⟨200, some (.str "weird"), ""⟩

/-- Environment whose catalog body makes the pipeline raise AttributeError. -/
def envBadBody : UpstreamEnv := ⟨fun _ => .ok respStrBody, fun _ _ => .ok respW404⟩

@[simp]
theorem errBind (e : PyExc) (f : α → PyM β) :
    (Except.error e >>= f : PyM β) = .error e := rfl

@[simp]
theorem okBind (a : α) (f : α → PyM β) :
    (Except.ok a >>= f : PyM β) = f a := rfl

theorem mapE_ok_length {f : α → PyM β} {xs : List α} {ys : List β}
    (h : mapE f xs = .ok ys) : ys.length = xs.length := by
  induction xs generalizing ys with
  | nil => simp [mapE] at h; simp [← h]
  | cons x xs ih =>
      rw [mapE] at h
      cases hx : f x with
      | error e => rw [hx] at h; exact absurd h (by simp)
      | ok y =>
          rw [hx] at h
          cases hm : mapE f xs with
          | error e => rw [hm] at h; exact absurd h (by simp)
          | ok ys0 =>
              rw [hm] at h
              cases h
              simp [ih hm]

theorem mapE_ok_get {f : α → PyM β} {xs : List α} {ys : List β}
    (h : mapE f xs = .ok ys) (i : Nat) (hi : i < xs.length) (hy : i < ys.length) :
    f (xs.get ⟨i, hi⟩) = .ok (ys.get ⟨i, hy⟩) := by
  induction xs generalizing ys i with
  | nil => exact absurd hi (by simp)
  | cons x xs ih =>
      rw [mapE] at h
      cases hx : f x with
      | error e => rw [hx] at h; exact absurd h (by simp)
      | ok y =>
          rw [hx] at h
          cases hm : mapE f xs with
          | error e => rw [hm] at h; exact absurd h (by simp)
          | ok ys0 =>
              rw [hm] at h
              cases h
              cases i with
              | zero => simpa using hx
              | succ j => exact ih hm j (by simpa using hi) (by simpa using hy)

/-- Warning selected from one gathered pair, as the loop body does. -/
def warnOf (p : Json × Option String) : Option String :=
  match p.2 with
  | some w => if w = "" then none else some w
  | none => none

theorem collectResults_spec (rs : List (Json × Option String)) :
    collectResults rs = (rs.map Prod.fst, rs.filterMap warnOf) := by
  induction rs with
  | nil => rfl
  | cons p rest ih =>
      obtain ⟨item, warning⟩ := p
      rw [show collectResults ((item, warning) :: rest) =
            (item :: (collectResults rest).1,
              match warning with
              | some w => if w = "" then (collectResults rest).2
                          else w :: (collectResults rest).2
              | none => (collectResults rest).2) from rfl, ih]
      cases warning with
      | none => simp [warnOf, List.filterMap_cons]
      | some w =>
          by_cases hw : w = "" <;> simp [warnOf, List.filterMap_cons, hw]

theorem pySlice_length {j : Json} {limit : Nat} {xs : List Json}
    (h : pySlice j limit = .ok xs) : xs.length ≤ limit := by
  cases j with
  | arr elems =>
      rw [pySlice] at h; cases h
      simp [List.length_take]
  | str s =>
      rw [pySlice] at h; cases h
      simp [List.length_take]
  | null => exact absurd h (by simp [pySlice])
  | bool b => exact absurd h (by simp [pySlice])
  | num n => exact absurd h (by simp [pySlice])
  | obj entries => exact absurd h (by simp [pySlice])

theorem requestAttempts_last (upstream : Nat → TransportOutcome)
    (rest : List Nat) :
    requestAttempts upstream (MAX_RETRIES :: rest) =
      (settleOutcome (upstream MAX_RETRIES), 1) := by
  rw [requestAttempts]
  cases upstream MAX_RETRIES with
  | ok r =>
      by_cases hc : RETRY_STATUS_CODES.contains r.status <;>
        simp [hc, settleOutcome]
  | timeout d => simp [settleOutcome]
  | networkError d => simp [settleOutcome]

theorem requestAttempts_step (upstream : Nat → TransportOutcome)
    (attempt : Nat) (rest : List Nat) (hne : attempt ≠ MAX_RETRIES)
    (hr : (upstream attempt).retryable = true) :
    requestAttempts upstream (attempt :: rest) =
      ((requestAttempts upstream rest).1, (requestAttempts upstream rest).2 + 1) := by
  cases hu : upstream attempt with
  | ok r =>
      have hc : RETRY_STATUS_CODES.contains r.status = true := by
        rw [hu, TransportOutcome.retryable] at hr; exact hr
      simp only [requestAttempts, hu]
      rw [if_pos hc, if_neg hne]
  | timeout d =>
      simp only [requestAttempts, hu]
      rw [if_neg hne]
  | networkError d =>
      simp only [requestAttempts, hu]
      rw [if_neg hne]

theorem requestAttempts_count_le (upstream : Nat → TransportOutcome)
    (attempt : Nat) (rest : List Nat) :
    (requestAttempts upstream (attempt :: rest)).2 ≤
      (requestAttempts upstream rest).2 + 1 := by
  cases hu : upstream attempt with
  | ok r =>
      simp only [requestAttempts, hu]
      by_cases hc : RETRY_STATUS_CODES.contains r.status = true
      · rw [if_pos hc]
        by_cases ha : attempt = MAX_RETRIES
        · rw [if_pos ha]; exact Nat.succ_le_succ (Nat.zero_le _)
        · rw [if_neg ha]
      · rw [if_neg hc]; exact Nat.succ_le_succ (Nat.zero_le _)
  | timeout d =>
      simp only [requestAttempts, hu]
      by_cases ha : attempt = MAX_RETRIES
      · rw [if_pos ha]; exact Nat.succ_le_succ (Nat.zero_le _)
      · rw [if_neg ha]
  | networkError d =>
      simp only [requestAttempts, hu]
      by_cases ha : attempt = MAX_RETRIES
      · rw [if_pos ha]; exact Nat.succ_le_succ (Nat.zero_le _)
      · rw [if_neg ha]

theorem mlRequest_count_le (upstream : Nat → TransportOutcome) :
    (mlRequest upstream).2 ≤ MAX_RETRIES + 1 := by
  have h3 : (requestAttempts upstream [3]).2 = 1 := by
    rw [show ([3] : List Nat) = [MAX_RETRIES] from rfl, requestAttempts_last]
  have h2 := requestAttempts_count_le upstream 2 [3]
  have h1 := requestAttempts_count_le upstream 1 [2, 3]
  have h0 := requestAttempts_count_le upstream 0 [1, 2, 3]
  show (requestAttempts upstream [0, 1, 2, 3]).2 ≤ 4
  omega

theorem searchOutcome_ok_length {cfg : ClientConfig} {res : PyM Response}
    {limit : Nat} {its : List Json} (h : searchOutcome cfg res limit = .ok its) :
    its.length ≤ limit := by
  cases res with
  | error e => rw [searchOutcome] at h; exact absurd h (by simp)
  | ok resp =>
      rw [searchOutcome, okBind] at h
      by_cases hs : resp.status ≠ 200
      · rw [if_pos hs] at h
        by_cases hp : resp.status = 403 ∧ cfg.proxyTruthy = false
        · rw [if_pos hp] at h; exact absurd h (by simp)
        · rw [if_neg hp] at h; exact absurd h (by simp)
      · rw [if_neg hs] at h
        cases hj : resp.json with
        | error e => rw [hj] at h; exact absurd h (by simp)
        | ok j =>
            rw [hj, okBind] at h
            simp only [parseSearchBody] at h
            cases hr : dictGetD (orElseJ j (.obj [])) "results" (.arr []) with
            | error e =>
                simp only [hr, errBind] at h
                exact Except.noConfusion h
            | ok results0 =>
                simp only [hr, okBind] at h
                cases hsl : pySlice (orElseJ results0 (.arr [])) limit with
                | error e =>
                    simp only [hsl, errBind] at h
                    exact Except.noConfusion h
                | ok sliced =>
                    simp only [hsl, okBind] at h
                    calc its.length = sliced.length := mapE_ok_length h
                      _ ≤ limit := pySlice_length hsl

theorem attach_ok_parts {env : UpstreamEnv} {items out : List Json}
    {warns : List String} (h : attach_reviews env items = .ok (out, warns)) :
    ∃ rs, mapE (fetch_reviews_with_semaphore env) items = .ok rs ∧
      out = rs.map Prod.fst ∧ warns = rs.filterMap warnOf := by
  rw [attach_reviews] at h
  cases hm : mapE (fetch_reviews_with_semaphore env) items with
  | error e =>
      simp only [hm] at h
      exact Except.noConfusion h
  | ok rs =>
      simp only [hm] at h
      rw [collectResults_spec] at h
      injection h with hp
      exact ⟨rs, rfl, (congrArg Prod.fst hp).symm, (congrArg Prod.snd hp).symm⟩

theorem attach_ok_length {env : UpstreamEnv} {items out : List Json}
    {warns : List String} (h : attach_reviews env items = .ok (out, warns)) :
    out.length = items.length := by
  obtain ⟨rs, hm, ho, -⟩ := attach_ok_parts h
  rw [ho]
  simp [mapE_ok_length hm]

theorem normalize_ok_length {items : List Json} {nits : List NormItem}
    (h : normalize_items items = .ok nits) : nits.length = items.length :=
  mapE_ok_length h

theorem reviewsOutcome_auth {resp : Response} (item_id : String)
    (hs : resp.status = 401 ∨ resp.status = 403) :
    reviewsOutcome (.ok resp) item_id =
      .ok ([], some ("forbidden_or_unauthorized (" ++ toString resp.status ++
        ") ao buscar reviews (" ++ item_id ++ ")")) := by
  simp only [reviewsOutcome]
  rw [if_pos hs]

theorem reviewsOutcome_404 {resp : Response} (item_id : String)
    (hs : resp.status = 404) :
    reviewsOutcome (.ok resp) item_id = .ok ([], none) := by
  simp [reviewsOutcome, hs]

theorem reviewsOutcome_429 {resp : Response} (item_id : String)
    (hs : resp.status = 429) :
    reviewsOutcome (.ok resp) item_id =
      .ok ([], some ("rate_limited (429) ao buscar reviews (" ++ item_id ++ ")")) := by
  simp [reviewsOutcome, hs]

theorem reviewsOutcome_other {resp : Response} (item_id : String)
    (h200 : resp.status ≠ 200) (h401 : resp.status ≠ 401)
    (h403 : resp.status ≠ 403) (h404 : resp.status ≠ 404)
    (h429 : resp.status ≠ 429) :
    reviewsOutcome (.ok resp) item_id =
      .ok ([], some ("erro (" ++ toString resp.status ++ ") ao buscar reviews ("
        ++ item_id ++ ")")) := by
  simp [reviewsOutcome, h200, h401, h403, h404, h429]

theorem reviewsOutcome_200_nonlist {resp : Response} (item_id : String)
    {entries : List (String × Json)} {v : Json}
    (hs : resp.status = 200) (hb : resp.jsonBody = some (.obj entries))
    (hl : lookupKey entries "reviews" = some v) (hA : v.isArr = false) :
    reviewsOutcome (.ok resp) item_id = .ok ([], none) := by
  simp only [reviewsOutcome, hs]
  rw [if_neg (by decide), if_neg (by decide), if_neg (by decide),
    if_neg (by simp)]
  rw [Response.json, hb]
  cases entries with
  | nil => simp [lookupKey] at hl
  | cons p rest =>
      rw [okBind]
      rw [show orElseJ (.obj (p :: rest)) (.obj []) = .obj (p :: rest) by
        simp [orElseJ, Json.truthy]]
      rw [dictGetD, hl]
      simp only [Option.getD_some, okBind]
      by_cases hv : v.truthy = true
      · rw [show orElseJ v (.arr []) = v by simp [orElseJ, hv]]
        cases v with
        | arr elems => simp [Json.isArr] at hA
        | null => rfl
        | bool b => rfl
        | num n => rfl
        | str s => rfl
        | obj o => rfl
      · rw [show orElseJ v (.arr []) = .arr [] by simp [orElseJ, hv]]
        rfl

/-- Claim C2 (amended): the status-to-outcome mapping of `get_item_reviews`
holds with the boundary drawn at status 200 exactly, not at the 2xx class:
401/403 give an empty list and a forbidden_or_unauthorized warning, 404 is
silent emptiness, 429 gives a rate_limited warning, every other final
status different from 200 — including 2xx statuses such as 201 — gives the
generic erro (status) warning, a re-raised timeout or network failure gives
a network_error warning, and a 200 response whose JSON-object body has a
non-list reviews field is silent emptiness. -/
theorem reviews_status_mapping (upstream : Nat → TransportOutcome)
    (item_id : String) :
    (∀ resp n, mlRequest upstream = (.ok resp, n) →
      (((resp.status = 401 ∨ resp.status = 403) →
        get_item_reviews upstream item_id =
          .ok ([], some ("forbidden_or_unauthorized (" ++ toString resp.status ++
            ") ao buscar reviews (" ++ item_id ++ ")"))) ∧
       (resp.status = 404 →
        get_item_reviews upstream item_id = .ok ([], none)) ∧
       (resp.status = 429 →
        get_item_reviews upstream item_id =
          .ok ([], some ("rate_limited (429) ao buscar reviews (" ++ item_id ++ ")"))) ∧
       (resp.status ≠ 200 → resp.status ≠ 401 → resp.status ≠ 403 →
        resp.status ≠ 404 → resp.status ≠ 429 →
        get_item_reviews upstream item_id =
          .ok ([], some ("erro (" ++ toString resp.status ++ ") ao buscar reviews ("
            ++ item_id ++ ")"))) ∧
       (∀ entries v, resp.status = 200 → resp.jsonBody = some (.obj entries) →
        lookupKey entries "reviews" = some v → v.isArr = false →
        get_item_reviews upstream item_id = .ok ([], none)))) ∧
    (∀ d n, mlRequest upstream = (.error (.httpTimeout d), n) →
      get_item_reviews upstream item_id =
        .ok ([], some ("network_error ao buscar reviews (" ++ item_id ++ "): " ++ d))) ∧
    (∀ d n, mlRequest upstream = (.error (.httpNetwork d), n) →
      get_item_reviews upstream item_id =
        .ok ([], some ("network_error ao buscar reviews (" ++ item_id ++ "): " ++ d))) := by
  refine ⟨?_, ?_, ?_⟩
  · intro resp n h
    have hfst : (mlRequest upstream).1 = .ok resp := by rw [h]
    rw [get_item_reviews, hfst]
    exact ⟨fun hs => reviewsOutcome_auth item_id hs,
      fun hs => reviewsOutcome_404 item_id hs,
      fun hs => reviewsOutcome_429 item_id hs,
      fun h200 h401 h403 h404 h429 =>
        reviewsOutcome_other item_id h200 h401 h403 h404 h429,
      fun entries v hs hb hl hA =>
        reviewsOutcome_200_nonlist item_id hs hb hl hA⟩
  · intro d n h
    have hfst : (mlRequest upstream).1 = .error (.httpTimeout d) := by rw [h]
    rw [get_item_reviews, hfst]
    rfl
  · intro d n h
    have hfst : (mlRequest upstream).1 = .error (.httpNetwork d) := by rw [h]
    rw [get_item_reviews, hfst]
    rfl

/-- Witness for the amended C2 mapping: a reviews endpoint answering 404
yields the silent empty pair. -/
theorem reviews_status_mapping_witness :
    mlRequest u404 = (.ok respW404, 1) ∧
    get_item_reviews u404 "MLB1" = .ok ([], none) :=
  ⟨rfl, ((reviews_status_mapping u404 "MLB1").1 respW404 1 rfl).2.1 rfl⟩

/-- Counterexample to claim C2 as stated: a 201 response — a 2xx status —
whose object body has a non-list reviews field produces the generic
erro (201) warning, not the silent ([], null) the claim assigns to 2xx. -/
theorem reviews_2xx_counterexample :
    get_item_reviews u201 "X1" =
      .ok ([], some "erro (201) ao buscar reviews (X1)") ∧
    ((some "erro (201) ao buscar reviews (X1)" : Option String) == none) = false :=
  ⟨rfl, rfl⟩

/-- Claim C1: the code raises here. On a 200 reviews response whose valid
JSON body is an array (not an object), `data.get("reviews", [])` raises
AttributeError, contradicting the never-raises contract and the function's
own docstring. -/
theorem get_item_reviews_raises_on_array_body :
    get_item_reviews uArr200 "MLB123" = .error .attributeError := rfl

/-- Claim C4 (amended): when every attempt is retryable the loop performs
exactly MAX_RETRIES + 1 = 4 transport calls — one initial call plus up to
MAX_RETRIES = 3 retries, not 3 total calls — and then returns the last
retryable response or re-raises the last transport error; and no upstream
behaviour ever makes it perform more than 4 calls. -/
theorem retry_exhaustion_behavior (upstream : Nat → TransportOutcome)
    (h : ∀ i, i ≤ MAX_RETRIES → (upstream i).retryable = true) :
    (mlRequest upstream).2 = MAX_RETRIES + 1 ∧
    (mlRequest upstream).1 = settleOutcome (upstream MAX_RETRIES) ∧
    ∀ u2 : Nat → TransportOutcome, (mlRequest u2).2 ≤ MAX_RETRIES + 1 := by
  have e0 := requestAttempts_step upstream 0 [1, 2, 3] (by decide) (h 0 (by decide))
  have e1 := requestAttempts_step upstream 1 [2, 3] (by decide) (h 1 (by decide))
  have e2 := requestAttempts_step upstream 2 [3] (by decide) (h 2 (by decide))
  have e3 : requestAttempts upstream [3] = (settleOutcome (upstream MAX_RETRIES), 1) := by
    rw [show ([3] : List Nat) = [MAX_RETRIES] from rfl, requestAttempts_last]
  have hm : mlRequest upstream = requestAttempts upstream (0 :: [1, 2, 3]) := rfl
  refine ⟨?_, ?_, fun u2 => mlRequest_count_le u2⟩
  · rw [hm, e0, e1, e2, e3]; rfl
  · rw [hm, e0, e1, e2, e3]

/-- Witness for the amended C4: an endpoint answering 503 on every attempt
is called exactly 4 times and the final 503 response is returned. -/
theorem retry_exhaustion_behavior_witness :
    (∀ i, i ≤ MAX_RETRIES → (u503 i).retryable = true) ∧
    (mlRequest u503).2 = MAX_RETRIES + 1 ∧
    (mlRequest u503).1 = settleOutcome (u503 MAX_RETRIES) :=
  ⟨fun _ _ => rfl, (retry_exhaustion_behavior u503 (fun _ _ => rfl)).1,
    (retry_exhaustion_behavior u503 (fun _ _ => rfl)).2.1⟩

/-- Counterexample to claim C4 as stated: with a constantly-503 endpoint
the loop performs 4 transport calls, which is not at most 3. -/
theorem retry_attempt_count_counterexample :
    (mlRequest u503).2 = 4 ∧ Nat.ble (mlRequest u503).2 3 = false :=
  ⟨rfl, rfl⟩

/-- Claim C3: when `search_items` raises a MercadoLivreError (the
CatalogError of the spec) the /search handler does not propagate it but
returns the structurally valid base payload with count 0, no items, and
the single warning derived from the error. -/
theorem orchestrator_absorbs_catalog_error (cfg : ClientConfig)
    (env : UpstreamEnv) (query : String) (limit : Nat) (st : Nat) (msg : String)
    (h : search_items cfg env.catalog query limit = .error (.mlError st msg)) :
    searchHandler cfg env query limit =
      { query := query, limit := limit, count := 0, items := [],
        warnings := ["Erro ao buscar itens no Mercado Livre (" ++ toString st
          ++ "): " ++ msg] } := by
  have hp : searchPipeline cfg env query limit = .error (.mlError st msg) := by
    simp only [searchPipeline, h, errBind]
  rw [searchHandler, hp]
  rfl

/-- Witness for C3: a catalog endpoint stuck on 500 makes the handler
return the degraded payload carrying the CatalogError message. -/
theorem orchestrator_absorbs_catalog_error_witness :
    search_items cfgNoProxy env500.catalog "q" 5 =
      .error (.mlError 500 "Erro ao buscar itens: boom") ∧
    searchHandler cfgNoProxy env500 "q" 5 =
      { query := "q", limit := 5, count := 0, items := [],
        warnings :=
          ["Erro ao buscar itens no Mercado Livre (500): Erro ao buscar itens: boom"] } :=
  ⟨rfl, orchestrator_absorbs_catalog_error cfgNoProxy env500 "q" 5 500
    "Erro ao buscar itens: boom" rfl⟩

/-- Claim C5 (amended): the distinguished IP/datacenter hint with the
forward-proxy remedy is attached to the 403 CatalogError only when no
truthy forward-proxy address is configured; with a proxy configured the
403 is reported through the generic message instead. -/
theorem forbidden_hint_without_proxy (cfg : ClientConfig)
    (upstream : Nat → TransportOutcome) (query : String) (limit : Nat)
    (resp : Response) (n : Nat) (hp : cfg.proxyTruthy = false)
    (h : mlRequest upstream = (.ok resp, n)) (hs : resp.status = 403) :
    search_items cfg upstream query limit = .error (.mlError 403 hint403) ∧
    strContains hint403 "bloqueio de IP/datacenter" = true ∧
    strContains hint403 "PROXY_URL" = true := by
  have hfst : (mlRequest upstream).1 = .ok resp := by rw [h]
  refine ⟨?_, by decide, by decide⟩
  simp only [search_items, searchOutcome, hfst, okBind]
  rw [if_pos (by rw [hs]; decide), if_pos ⟨hs, hp⟩]

/-- Witness for the amended C5: without a proxy, a 403 catalog response
produces the CatalogError carrying the hint message. -/
theorem forbidden_hint_without_proxy_witness :
    cfgNoProxy.proxyTruthy = false ∧
    mlRequest u403 = (.ok resp403, 1) ∧
    search_items cfgNoProxy u403 "q" 5 = .error (.mlError 403 hint403) :=
  ⟨rfl, rfl,
    (forbidden_hint_without_proxy cfgNoProxy u403 "q" 5 resp403 1 rfl rfl rfl).1⟩

/-- Counterexample to claim C5 as stated: with a forward proxy configured,
a 403 catalog response raises the generic CatalogError whose message
mentions neither the proxy remedy nor the IP/datacenter blocking hint. -/
theorem forbidden_hint_counterexample :
    search_items cfgWithProxy u403 "q" 5 =
      .error (.mlError 403 "Erro ao buscar itens: blocked") ∧
    strContains "Erro ao buscar itens: blocked" "PROXY_URL" = false ∧
    strContains "Erro ao buscar itens: blocked" "bloqueio de IP/datacenter" = false :=
  ⟨rfl, by decide, by decide⟩

/-- Claim C10: every exception raised inside the search-plus-enrichment
pipeline — MercadoLivreError, transport-level HTTP errors, and any other
exception — is converted by the handler into one warning string on the
otherwise valid base payload (count 0, items []); the handler is a total
function into SearchPayload, so no exception propagates, and on every
input count equals the number of items. -/
theorem handler_never_propagates (cfg : ClientConfig) (env : UpstreamEnv)
    (query : String) (limit : Nat) :
    (∀ e, searchPipeline cfg env query limit = .error e →
      searchHandler cfg env query limit =
        { query := query, limit := limit, count := 0, items := [],
          warnings := [handlerWarning e] }) ∧
    (searchHandler cfg env query limit).count =
      (searchHandler cfg env query limit).items.length := by
  constructor
  · intro e he
    rw [searchHandler, he]
  · cases hp : searchPipeline cfg env query limit with
    | error e => rw [searchHandler, hp]; rfl
    | ok pr => rw [searchHandler, hp]

/-- Witness for C10: a catalog body that is a JSON string makes the
pipeline raise AttributeError, which the handler turns into the
unexpected-error warning on the base payload. -/
theorem handler_never_propagates_witness :
    searchPipeline cfgNoProxy envBadBody "q" 3 = .error .attributeError ∧
    searchHandler cfgNoProxy envBadBody "q" 3 =
      { query := "q", limit := 3, count := 0, items := [],
        warnings := ["Erro inesperado no servidor: AttributeError"] } :=
  ⟨rfl, (handler_never_propagates cfgNoProxy envBadBody "q" 3).1 .attributeError rfl⟩

/-- Claim C6: `attach_reviews` is an index-aligned gather: the output has
one entry per input item, the i-th output item is the i-th input item with
its reviews attached (the value of the per-item fetch at that index), and
the warnings are the truthy per-item warnings collected in the same input
index order. The cooperative scheduling itself is not modelled; the
index-aligned merge of the gathered results is. -/
theorem attach_reviews_preserves_order (env : UpstreamEnv)
    (items out : List Json) (warns : List String)
    (h : attach_reviews env items = .ok (out, warns)) :
    out.length = items.length ∧
    (∀ i (hi : i < items.length) (ho : i < out.length),
      ∃ w, fetch_reviews_with_semaphore env (items.get ⟨i, hi⟩) =
        .ok (out.get ⟨i, ho⟩, w)) ∧
    (∃ rs, mapE (fetch_reviews_with_semaphore env) items = .ok rs ∧
      out = rs.map Prod.fst ∧ warns = rs.filterMap warnOf) := by
  obtain ⟨rs, hm, ho, hw⟩ := attach_ok_parts h
  have hrl : rs.length = items.length := mapE_ok_length hm
  have hol : out.length = items.length := by rw [ho, List.length_map, hrl]
  refine ⟨hol, ?_, ⟨rs, hm, ho, hw⟩⟩
  intro i hi hoi
  have hri : i < rs.length := by rw [hrl]; exact hi
  have hfe := mapE_ok_get hm i hi hri
  have hout : out.get ⟨i, hoi⟩ = (rs.get ⟨i, hri⟩).1 := by
    subst ho
    simp
  refine ⟨(rs.get ⟨i, hri⟩).2, ?_⟩
  rw [hfe, hout]

/-- Witness for C6: gathering two items over a 404 reviews endpoint keeps
both in input order with empty reviews and no warnings. -/
theorem attach_reviews_preserves_order_witness :
    attach_reviews envReviews404 [itemA, itemB] =
      .ok ([.obj [("id", .str "MLBA"), ("reviews", .arr [])],
            .obj [("id", .str "MLBB"), ("reviews", .arr [])]], []) ∧
    ([.obj [("id", .str "MLBA"), ("reviews", .arr [])],
      .obj [("id", .str "MLBB"), ("reviews", .arr [])]] : List Json).length =
      ([itemA, itemB] : List Json).length :=
  ⟨rfl,
    (attach_reviews_preserves_order envReviews404 [itemA, itemB] _ _ rfl).1⟩

/-- Claim C7: the /search payload always satisfies count = number of
items, and whenever the catalog call succeeds the number of items in the
payload is at most the requested limit, because `search_items` truncates
the upstream result list to limit entries. -/
theorem payload_count_and_limit (cfg : ClientConfig) (env : UpstreamEnv)
    (query : String) (limit : Nat) :
    (searchHandler cfg env query limit).count =
      (searchHandler cfg env query limit).items.length ∧
    (∀ its, search_items cfg env.catalog query limit = .ok its →
      (searchHandler cfg env query limit).items.length ≤ limit) := by
  constructor
  · cases hp : searchPipeline cfg env query limit with
    | error e => rw [searchHandler, hp]; rfl
    | ok pr => rw [searchHandler, hp]
  · intro its hs
    cases hp : searchPipeline cfg env query limit with
    | error e =>
        rw [searchHandler, hp]
        exact Nat.zero_le limit
    | ok pr =>
        rw [searchHandler, hp]
        show pr.1.length ≤ limit
        simp only [searchPipeline, hs, okBind] at hp
        cases ha : attach_reviews env its with
        | error e =>
            simp only [ha, errBind] at hp
            exact Except.noConfusion hp
        | ok prr =>
            simp only [ha, okBind] at hp
            cases hn : normalize_items prr.1 with
            | error e =>
                simp only [hn, errBind] at hp
                exact Except.noConfusion hp
            | ok nits =>
                simp only [hn, okBind] at hp
                have hpe : (nits, prr.2) = pr := by
                  injection hp
                rw [← hpe]
                show nits.length ≤ limit
                have l1 : nits.length = prr.1.length := normalize_ok_length hn
                have l2 : prr.1.length = its.length :=
                  attach_ok_length
                    (show attach_reviews env its = .ok (prr.1, prr.2) from ha)
                have l3 : its.length ≤ limit :=
                  searchOutcome_ok_length
                    (show searchOutcome cfg (mlRequest env.catalog).1 limit
                      = .ok its from hs)
                omega

/-- Witness for C7: a successful search for one item under limit 2 gives
count 1 = number of items ≤ 2. -/
theorem payload_count_and_limit_witness :
    search_items cfgNoProxy envSearchOk.catalog "notebook" 2 = .ok [itemW] ∧
    (searchHandler cfgNoProxy envSearchOk "notebook" 2).items.length ≤ 2 ∧
    (searchHandler cfgNoProxy envSearchOk "notebook" 2).count =
      (searchHandler cfgNoProxy envSearchOk "notebook" 2).items.length :=
  ⟨rfl,
    (payload_count_and_limit cfgNoProxy envSearchOk "notebook" 2).2 [itemW] rfl,
    (payload_count_and_limit cfgNoProxy envSearchOk "notebook" 2).1⟩

/-- Claim C9: an item whose id is missing, null, or otherwise falsy skips
the reviews call entirely — the result does not depend on the reviews
upstream at all — and resolves to the item with an empty reviews list and
no warning. -/
theorem null_id_skips_fetch (env env2 : UpstreamEnv) (item idv : Json)
    (h : dictGet item "id" = .ok idv) (ht : idv.truthy = false) :
    fetch_reviews_with_semaphore env item =
      .ok (Json.setKey item "reviews" (.arr []), none) ∧
    fetch_reviews_with_semaphore env item =
      fetch_reviews_with_semaphore env2 item := by
  have h1 : ∀ e : UpstreamEnv, fetch_reviews_with_semaphore e item =
      .ok (Json.setKey item "reviews" (.arr []), none) := by
    intro e
    simp only [fetch_reviews_with_semaphore, h, okBind]
    rw [if_pos ht]
    rfl
  exact ⟨h1 env, by rw [h1 env, h1 env2]⟩

/-- Witness for C9: an item with a null id resolves to itself plus empty
reviews and no warning, identically under two different environments. -/
theorem null_id_skips_fetch_witness :
    dictGet itemNullId "id" = .ok .null ∧
    fetch_reviews_with_semaphore envReviews404 itemNullId =
      .ok (.obj [("id", .null), ("title", .str "T"), ("reviews", .arr [])], none) ∧
    fetch_reviews_with_semaphore envReviews404 itemNullId =
      fetch_reviews_with_semaphore envAlt itemNullId :=
  ⟨rfl,
    (null_id_skips_fetch envReviews404 envAlt itemNullId .null rfl rfl).1,
    (null_id_skips_fetch envReviews404 envAlt itemNullId .null rfl rfl).2⟩

theorem parseCatalogEntry_obj (entries : List (String × Json)) :
    parseCatalogEntry (.obj entries) =
      .ok (.obj [("id", jGet entries "id"), ("title", jGet entries "title"),
        ("price", jGet entries "price"),
        ("image", orElseJ (jGet entries "thumbnail")
          (orElseJ (jGet entries "secure_thumbnail")
            (jGet entries "thumbnail_id")))]) := by
  simp only [parseCatalogEntry, dictGet, dictGetD, okBind, jGet]
  rfl

theorem normalizeOne_parsed (A B C : Json) (s : String) (rs : List Json)
    (hp1 : strStartsWith s "http://" = false)
    (hp2 : strStartsWith s "https://" = false) :
    normalizeOne (.obj [("id", A), ("title", B), ("price", C),
        ("image", .str s), ("reviews", .arr rs)]) =
      .ok { id := A, title := orElseJ B (.str ""), price := C, image := none,
            permalink := .null, reviews := rs } := by
  have hnone : (if s ≠ "" ∧ (strStartsWith s "http://" ∨ strStartsWith s "https://")
      then some s else (none : Option String)) = none := by
    rw [if_neg]
    rintro ⟨-, hcase | hcase⟩
    · rw [hp1] at hcase; exact Bool.noConfusion hcase
    · rw [hp2] at hcase; exact Bool.noConfusion hcase
  have hstep : normalizeOne (.obj [("id", A), ("title", B), ("price", C),
      ("image", .str s), ("reviews", .arr rs)]) =
    Except.ok (NormItem.mk A (orElseJ B (orElseJ .null (.str ""))) C
      (if s ≠ "" ∧ (strStartsWith s "http://" ∨ strStartsWith s "https://")
        then some s else none)
      (orElseJ Json.null (orElseJ .null .null)) rs) := rfl
  rw [hstep, hnone]
  rfl

/-- Claim C8 (amended): the item image is taken from the plain thumbnail
field first — the secure HTTPS field is consulted only when the plain one
is missing or falsy, so when both are present the plain one wins — and a
bare thumbnail identifier that is not an http(s) URL results in a null
image in the final normalized payload. -/
theorem image_selection_amended :
    (∀ entries tv, lookupKey entries "thumbnail" = some tv → tv.truthy = true →
      parseCatalogEntry (.obj entries) =
        .ok (.obj [("id", jGet entries "id"), ("title", jGet entries "title"),
          ("price", jGet entries "price"), ("image", tv)])) ∧
    (∀ entries s rs, (jGet entries "thumbnail").truthy = false →
      (jGet entries "secure_thumbnail").truthy = false →
      jGet entries "thumbnail_id" = .str s →
      strStartsWith s "http://" = false → strStartsWith s "https://" = false →
      ∃ item, parseCatalogEntry (.obj entries) = .ok item ∧
        normalizeOne (Json.setKey item "reviews" (.arr rs)) =
          .ok { id := jGet entries "id",
                title := orElseJ (jGet entries "title") (.str ""),
                price := jGet entries "price", image := none,
                permalink := .null, reviews := rs }) := by
  constructor
  · intro entries tv hl ht
    rw [parseCatalogEntry_obj]
    have hth : jGet entries "thumbnail" = tv := by rw [jGet, hl]; rfl
    rw [hth, show orElseJ tv (orElseJ (jGet entries "secure_thumbnail")
      (jGet entries "thumbnail_id")) = tv from by rw [orElseJ, if_pos ht]]
  · intro entries s rs h1 h2 h3 hp1 hp2
    refine ⟨_, parseCatalogEntry_obj entries, ?_⟩
    have himg : orElseJ (jGet entries "thumbnail")
        (orElseJ (jGet entries "secure_thumbnail") (jGet entries "thumbnail_id"))
        = .str s := by
      rw [orElseJ, if_neg (by simp [h1]), orElseJ, if_neg (by simp [h2]), h3]
    rw [himg]
    exact normalizeOne_parsed (jGet entries "id") (jGet entries "title")
      (jGet entries "price") s rs hp1 hp2

/-- Witness for the amended C8: on an entry carrying both thumbnail
fields, the parsed item's image is the plain http URL. -/
theorem image_selection_amended_witness :
    lookupKey kvsBoth "thumbnail" = some (.str "http://img.example/x.jpg") ∧
    parseCatalogEntry (.obj kvsBoth) =
      .ok (.obj [("id", .str "MLB2"), ("title", .null), ("price", .null),
        ("image", .str "http://img.example/x.jpg")]) :=
  ⟨rfl, image_selection_amended.1 kvsBoth (.str "http://img.example/x.jpg")
    rfl rfl⟩

/-- Counterexample to claim C8 as stated: a catalog result carrying both a
secure HTTPS thumbnail and a plain thumbnail ends up with the plain one,
not the secure one, in the final payload. -/
theorem image_prefers_plain_counterexample :
    (searchHandler cfgNoProxy envSearchBoth "q" 5).items.map (fun it => it.image)
      = [some "http://img.example/x.jpg"] ∧
    (((searchHandler cfgNoProxy envSearchBoth "q" 5).items.map (fun it => it.image))
      == [some "https://img.example/x.jpg"]) = false :=
  ⟨rfl, rfl⟩
